import Mathlib

/-!
# containerlab node drivers: `nodes/xrd/xrd.go` and `nodes/srl/banner.go`

A shallow embedding of the Cisco XRd driver (`xrd.Init`, `xrd.PreDeploy`,
`xrd.PostDeploy`, `xrd.Delete`, `xrd.createXRDFiles`) and of the SR Linux banner
formatter (`srl.banner`), followed by theorems about them.

Conventions of the embedding

* Go `string` is `String`; `len(s)` is the UTF-8 byte count (`goLen`).
* Go `map[string]string` is an association list read with `List.lookup`
  (a key is looked up from the front, insertion order carries no meaning).
* A method with a pointer receiver takes the receiver value and returns the
  updated value next to its result.
* A call that may end in `panic` or in `log.Fatal` (which exits the process)
  reports how control left the function through `Result`.
* The filesystem and the container engine are explicit state; files are kept by
  the place their path resolves to.
-/

set_option autoImplicit false
set_option linter.dupNamespace false

namespace Containerlab

/-! ## Go runtime vocabulary -/

/-- Go `len(s)` for a string: the number of bytes of its UTF-8 encoding. -/
def goLen (s : String) : Nat := s.utf8ByteSize

/-- Error values crossing the driver boundary, by the kinds the specification names. -/
inductive Error where
  | ConfigurationError (msg : String)
  | FilesystemError (msg : String)
  | TemplateError (msg : String)
  | RuntimeError (msg : String)
  deriving DecidableEq, Repr

/-- How control leaves a Go function: a normal return, a `panic`, or the
process exit performed by `log.Fatal`. -/
inductive Result (α : Type) where
  | returned (val : α)
  | panicked (cause : Option Error)
  | exited (code : Nat)
  deriving DecidableEq, Repr

/-! ## `fmt.Sprintf` -/

namespace fmt

/-- An operand of `Sprintf`: the sources pass strings and ints only. -/
inductive Arg where
  | str (s : String)
  | int (n : Int)
  deriving DecidableEq, Repr

/-- Width padding of a formatted operand: spaces up to `w` runes, on the right
with the `-` flag and on the left without it. -/
def pad (minus : Bool) (w : Option Nat) (s : List Char) : List Char :=
  match w with
  | none => s
  | some n =>
    if minus then s ++ List.replicate (n - s.length) ' '
    else List.replicate (n - s.length) ' ' ++ s

/-- One operand under one verb. `%s` takes a string and `%d` an int; any other
pairing prints Go's bad-verb form `%!verb(type=value)`. -/
def formatArg (verb : Char) (minus : Bool) (w : Option Nat) : Arg → List Char
  | .str s =>
    if verb = 's' then pad minus w s.data
    else "%!".data ++ [verb] ++ "(string=".data ++ s.data ++ [')']
  | .int n =>
    if verb = 'd' then pad minus w (toString n).data
    else "%!".data ++ [verb] ++ "(int=".data ++ (toString n).data ++ [')']

/-- Operands left over once the format is exhausted, as Go reports them. -/
def extraArgs : List Arg → List (List Char)
  | [] => []
  | .str s :: as => ("string=".data ++ s.data) :: extraArgs as
  | .int n :: as => ("int=".data ++ (toString n).data) :: extraArgs as

/-- The scanner of `Sprintf`. The second argument is `none` while copying literal
text and `some (minus, width)` after a `%`, while flags and width are read. -/
def sprintfAux : List Char → Option (Bool × Option Nat) → List Arg → List Char
  | [], none, [] => []
  | [], none, a :: as =>
    "%!(EXTRA ".data ++ ", ".data.intercalate (extraArgs (a :: as)) ++ [')']
  | [], some _, _ => "%!(NOVERB)".data
  | c :: cs, none, args =>
    if c = '%' then sprintfAux cs (some (false, none)) args
    else c :: sprintfAux cs none args
  | c :: cs, some (minus, w), args =>
    if c = '-' ∧ w = none then sprintfAux cs (some (true, none)) args
    else if c.isDigit then
      sprintfAux cs (some (minus, some (w.getD 0 * 10 + (c.toNat - 48)))) args
    else if c = '%' then '%' :: sprintfAux cs none args
    else
      match args with
      | [] => "%!".data ++ [c] ++ "(MISSING)".data ++ sprintfAux cs none []
      | a :: as => formatArg c minus w a ++ sprintfAux cs none as

/-- Go `fmt.Sprintf` for the verbs the sources use (`%s`, `%d`, `%%`, with an
optional `-` flag and a decimal width counted in runes). The other flags and verbs
of Go, which the sources do not use, are not modelled. -/
def Sprintf (format : String) (args : List Arg) : String :=
  ⟨sprintfAux format.data none args⟩

end fmt

/-! ## `path/filepath` -/

namespace filepath

/-- Path elements between separators: `a//b` gives `a`, the empty element, `b`. -/
def splitSep : List Char → List (List Char)
  | [] => [[]]
  | c :: cs =>
    if c = '/' then [] :: splitSep cs
    else
      match splitSep cs with
      | [] => [[c]]
      | e :: es => (c :: e) :: es

/-- The element loop of `Clean`, the kept elements held last-first: empty and `.`
elements are dropped; `..` removes the last real element, is dropped at the root,
and is kept in front of a relative path. -/
def cleanElems (rooted : Bool) : List (List Char) → List (List Char) → List (List Char)
  | [], kept => kept
  | e :: es, kept =>
    if e = [] ∨ e = ['.'] then cleanElems rooted es kept
    else if e = ['.', '.'] then
      match kept with
      | top :: below =>
        if top = ['.', '.'] then cleanElems rooted es (e :: kept)
        else cleanElems rooted es below
      | [] => if rooted then cleanElems rooted es [] else cleanElems rooted es [e]
    else cleanElems rooted es (e :: kept)

/-- Go `filepath.Clean` with `/` as the separator: the shortest equivalent path. -/
def Clean (path : String) : String :=
  if path = "" then "."
  else
    let rooted : Bool := path.data.head? = some '/'
    let kept := cleanElems rooted (splitSep path.data) []
    let body := ['/'].intercalate kept.reverse
    if rooted then ⟨'/' :: body⟩
    else if kept = [] then "."
    else ⟨body⟩

/-- Go `filepath.Join` of two elements: empty elements are ignored and the
result is cleaned; joining nothing gives the empty string. -/
def Join (a b : String) : String :=
  if a ≠ "" then Clean (a ++ "/" ++ b)
  else if b ≠ "" then Clean b
  else ""

/-- Go `filepath.Dir`: the path up to its last separator, cleaned; the directory
an element of that path lies in. -/
def Dir (path : String) : String :=
  Clean ⟨(path.data.reverse.dropWhile (fun c => c ≠ '/')).reverse⟩

end filepath

/-! ## The filesystem -/

/-- What the drivers see of the filesystem. `resolve` gives the place a path
denotes: two spellings of a path, or a link and its target, denote one place.
Regular files with their content, directories and permissions are kept by place:
`denied` marks the places the process may neither read, write nor create, and
`readOnly` the places whose file the process may read and replace as a whole but
not open for writing (its mode bits, as the creation mask or its owner left them). -/
structure FileSys where
  resolve : String → String
  files : String → Option String
  dirs : String → Bool
  denied : String → Bool
  readOnly : String → Bool

namespace FileSys

/-- Replace the content of the file at `place`. -/
def write (fs : FileSys) (place content : String) : FileSys :=
  { fs with files := fun p => if p = place then some content else fs.files p }

end FileSys

namespace os

/-- Go `os.OpenFile(path, os.O_WRONLY|os.O_APPEND, 0666)`: without `O_CREATE` the
file has to exist, and the process needs write access to it. The handle of an
open file is the place of the file. -/
def OpenFileAppend (fs : FileSys) (path : String) : Except Error String :=
  match fs.files (fs.resolve path) with
  | none =>
    if fs.dirs (fs.resolve path) then
      .error (.FilesystemError ("open " ++ path ++ ": is a directory"))
    else .error (.FilesystemError ("open " ++ path ++ ": no such file or directory"))
  | some _ =>
    if fs.denied (fs.resolve path) ∨ fs.readOnly (fs.resolve path) then
      .error (.FilesystemError ("open " ++ path ++ ": permission denied"))
    else .ok (fs.resolve path)

end os

namespace ioutil

/-- Go `ioutil.ReadFile`: the whole content of the file `path` denotes. -/
def ReadFile (fs : FileSys) (path : String) : Except Error String :=
  match fs.files (fs.resolve path) with
  | none =>
    if fs.dirs (fs.resolve path) then
      .error (.FilesystemError ("read " ++ path ++ ": is a directory"))
    else .error (.FilesystemError ("open " ++ path ++ ": no such file or directory"))
  | some content =>
    if fs.denied (fs.resolve path) then
      .error (.FilesystemError ("open " ++ path ++ ": permission denied"))
    else .ok content

end ioutil

namespace fmt

/-- Go `fmt.Fprintln(file, s)` on a handle opened with `O_APPEND`: `s` and a
newline go to the end of the file. -/
def Fprintln (fs : FileSys) (file s : String) : FileSys :=
  match fs.files file with
  | none => fs
  | some old => fs.write file (old ++ s ++ "\n")

end fmt

/-! ## `types`, `utils`, `runtime`: the parts of the repository the drivers call -/

namespace types

/-- The fields of `types.NodeConfig` that the two drivers read or write. -/
structure NodeConfig where
  ShortName : String
  LongName : String
  Image : String
  LabDir : String
  Env : List (String × String)
  Binds : List String
  StartupConfig : String
  ResStartupConfig : String
  EnforceStartupConfig : Bool
  deriving DecidableEq, Repr

/-- Modelled from the spec: `NodeConfig.GenerateConfig` is missing from the
sources. It renders the template against the config and writes the result to
`dst` with truncate-and-write semantics: whatever `dst` held is replaced by the
rendered text. A rendering failure is returned; so is a failure to write `dst`,
when its directory does not exist, when `dst` is a directory or when access is
denied. A failure leaves the filesystem as it was. The template engine is the
parameter `render`. -/
def NodeConfig.GenerateConfig (render : NodeConfig → String → Except Error String)
    (node : NodeConfig) (dst templ : String) (fs : FileSys) : Except Error FileSys :=
  match render node templ with
  | .error e => .error e
  | .ok text =>
    if fs.dirs (fs.resolve (filepath.Dir dst)) = false then
      .error (.FilesystemError ("open " ++ dst ++ ": no such file or directory"))
    else if fs.dirs (fs.resolve dst) then
      .error (.FilesystemError ("open " ++ dst ++ ": is a directory"))
    else if fs.denied (fs.resolve dst) then
      .error (.FilesystemError ("open " ++ dst ++ ": permission denied"))
    else .ok (fs.write (fs.resolve dst) text)

end types

namespace utils

/-- Modelled from the spec: `utils.MergeStringMaps` is missing from the sources.
The keys of the first map are inserted only if absent from the second; the keys
the second map already has are untouched. -/
def MergeStringMaps (m1 m2 : List (String × String)) : List (String × String) :=
  m2 ++ m1.filter (fun kv => (m2.lookup kv.1).isNone)

/-- Modelled from the spec: `utils.CreateDirectory` is missing from the sources.
Directory creation is idempotent: afterwards the directory exists, unless access
is denied or a regular file is in its place; the caller gets no error back. -/
def CreateDirectory (fs : FileSys) (path : String) : FileSys :=
  if fs.denied (fs.resolve path) ∨ (fs.files (fs.resolve path)).isSome then fs
  else { fs with dirs := fun p => if p = fs.resolve path then true else fs.dirs p }

end utils

/-- The methods of `runtime.ContainerRuntime` the two drivers call, over a state
`W` of the container engine. -/
structure ContainerRuntime (W : Type) where
  Exec : W → String → List String → (String × String × Option Error) × W
  DeleteContainer : W → String → Option Error × W

/-! ## `nodes/srl/banner.go` -/

namespace srl

/-- The `banner` constant of `banner.go`: 15 lines, each ended by a newline. -/
def banner : String :=
  "................................................................\n" ++
  ":                  Welcome to Nokia SR Linux!                  :\n" ++
  ":              Open Network OS for the NetOps era.             :\n" ++
  ":                                                              :\n" ++
  ":    This is a freely distributed official container image.    :\n" ++
  ":                      Use it - Share it                       :\n" ++
  ":                                                              :\n" ++
  ": Get started: https://learn.srlinux.dev                       :\n" ++
  ": Container:   https://go.srlinux.dev/container-image          :\n" ++
  ": Docs:        https://doc.srlinux.dev/%s-%-2s                   :\n" ++
  ": Rel. notes:  https://doc.srlinux.dev/rn%s-%s-%s               :\n" ++
  ": YANG:        https://yang.srlinux.dev/v%s.%s.%s               :\n" ++
  ": Discord:     https://go.srlinux.dev/discord                  :\n" ++
  ": Contact:     https://go.srlinux.dev/contact-sales            :\n" ++
  "................................................................\n"

/-- The version tokens `banner` reads from the parsed version. -/
structure SrlVersion where
  major : String
  minor : String
  patch : String
  deriving DecidableEq, Repr

/-- The `srl` driver: its node config and its runtime gateway (`nil` until
`WithRuntime` installs one). -/
structure srl (W : Type) where
  cfg : types.NodeConfig
  runtime : Option (ContainerRuntime W)

/-- The method `(s *srl) banner(ctx)`. `parseVersionString` lives in a file of
the package that is not among the sources and is a parameter. The result pairs
the returned string with the returned error. -/
def srl.banner {W : Type} (s : srl W) (parseVersionString : String → SrlVersion) (w : W) :
    Result (String × Option Error) × W :=
  match s.runtime with
  | none => (.panicked none, w)
  | some rt =>
    match rt.Exec w s.cfg.LongName
        ["sr_cli", "-d", "info from state /system information version | grep version"] with
    | ((_, _, some err), w1) => (.returned ("", some err), w1)
    | ((stdout, _, none), w1) =>
      let v := parseVersionString stdout
      let v := if goLen v.minor = 1 then { v with patch := v.patch ++ " " } else v
      let b := fmt.Sprintf Containerlab.srl.banner
        [.str v.major, .str v.minor,
         .str v.major, .str v.minor, .str v.patch,
         .str v.major, .str v.minor, .str v.patch]
      (.returned (b, none), w1)

end srl

/-! ## `nodes/xrd/xrd.go` -/

namespace xrd

/-- The package variable `defEnv`. -/
def defEnv : List (String × String) :=
  [("XR_FIRST_BOOT_CONFIG", "/etc/xrd/first-boot.cfg"),
   ("XR_MGMT_INTERFACES", "linux:eth0,xr_name=Mg0/RP0/CPU0/0,chksum")]

/-- The `xrd` driver: its node config and its runtime gateway (`nil` until
`WithRuntime` installs one). -/
structure xrd (W : Type) where
  cfg : types.NodeConfig
  runtime : Option (ContainerRuntime W)

/-- The loop of `Init` that builds the value of `XR_INTERFACES`, `i` running
from 0 up to and excluding 90. -/
def interfaceEnvCount : String :=
  (List.range 90).foldl
    (fun (acc : String) (i : Nat) =>
      acc ++ fmt.Sprintf "linux:eth%d,xr_name=Gi0/0/0/%d;" [.int ((i : Int) + 1), .int (i : Int)])
    ""

/-- The loop `for _, o := range opts { o(x) }`: a `nodes.NodeOption` is a function
on the driver, and the options run in order. -/
def applyOptions {W : Type} (opts : List (xrd W → xrd W)) (x : xrd W) : xrd W :=
  opts.foldl (fun x o => o x) x

/-- The method `(x *xrd) Init(cfg, opts...)`. The result pairs the returned error
with the driver. -/
def xrd.Init {W : Type} (x : xrd W) (cfg : types.NodeConfig) (opts : List (xrd W → xrd W)) :
    Option Error × xrd W :=
  let x := { x with cfg := cfg }
  let x := applyOptions opts x
  let x := { x with cfg := { x.cfg with Env := defEnv } }
  let interfaceEnv := [("XR_INTERFACES", interfaceEnvCount)]
  let x := { x with cfg := { x.cfg with Env := utils.MergeStringMaps interfaceEnv x.cfg.Env } }
  let cfgFilePath := filepath.Join x.cfg.LabDir "xrd.conf"
  let x := { x with cfg := { x.cfg with
    Binds := x.cfg.Binds ++ [fmt.Sprintf "%s:/etc/xrd/first-boot.cfg" [.str cfgFilePath]] } }
  (none, x)

/-- The method `(x *xrd) Config()`. -/
def xrd.Config {W : Type} (x : xrd W) : types.NodeConfig := x.cfg

/-- The method `(x *xrd) createXRDFiles()`. The template engine `render` and the
embedded template `cfgTemplate` (the file `xrd.conf`, not among the sources) are
parameters. `nodeCfg` and `x.cfg` are one object, so a single config is threaded. -/
def xrd.createXRDFiles {W : Type} (render : types.NodeConfig → String → Except Error String)
    (cfgTemplate : String) (x : xrd W) (fs : FileSys) :
    Result (Option Error) × xrd W × FileSys :=
  let nodeCfg := x.Config
  let nodeCfg := { nodeCfg with ResStartupConfig := filepath.Join nodeCfg.LabDir "xrd.conf" }
  let nodeCfg := { nodeCfg with EnforceStartupConfig := true }
  let nodeCfg :=
    if nodeCfg.StartupConfig = "" then { nodeCfg with StartupConfig := "None" } else nodeCfg
  let x := { x with cfg := nodeCfg }
  match nodeCfg.GenerateConfig render nodeCfg.ResStartupConfig cfgTemplate fs with
  | .error err => (.returned (some err), x, fs)
  | .ok fs =>
    if nodeCfg.StartupConfig ≠ "None" then
      match os.OpenFileAppend fs nodeCfg.ResStartupConfig with
      | .error _ => (.exited 1, x, fs)
      | .ok file =>
        match ioutil.ReadFile fs nodeCfg.StartupConfig with
        | .error err => (.panicked (some err), x, fs)
        | .ok bytes =>
          let startupconfig := bytes
          (.returned none, x, fmt.Fprintln fs file startupconfig)
    else (.returned none, x, fs)

/-- The method `(x *xrd) PreDeploy(_, _, _)`. -/
def xrd.PreDeploy {W : Type} (render : types.NodeConfig → String → Except Error String)
    (cfgTemplate : String) (x : xrd W) (fs : FileSys) :
    Result (Option Error) × xrd W × FileSys :=
  let fs := utils.CreateDirectory fs x.cfg.LabDir
  x.createXRDFiles render cfgTemplate fs

/-- The method `(x *xrd) PostDeploy(ctx, peers)`: the error `createXRDFiles`
returns is dropped. -/
def xrd.PostDeploy {W : Type} (render : types.NodeConfig → String → Except Error String)
    (cfgTemplate : String) (x : xrd W) (fs : FileSys) :
    Result (Option Error) × xrd W × FileSys :=
  match x.createXRDFiles render cfgTemplate fs with
  | (.returned _, x, fs) => (.returned none, x, fs)
  | r => r

/-- The method `(x *xrd) WithRuntime(r)`. -/
def xrd.WithRuntime {W : Type} (x : xrd W) (r : ContainerRuntime W) : xrd W :=
  { x with runtime := some r }

/-- The method `(x *xrd) Delete(ctx)`. -/
def xrd.Delete {W : Type} (x : xrd W) (w : W) : Result (Option Error) × W :=
  match x.runtime with
  | none => (.panicked none, w)
  | some rt =>
    match rt.DeleteContainer w x.cfg.LongName with
    | (err, w1) => (.returned err, w1)

end xrd

namespace srl

/-- The banner text in front of the first verb. -/
def seg0 : String :=
  "................................................................\n" ++
  ":                  Welcome to Nokia SR Linux!                  :\n" ++
  ":              Open Network OS for the NetOps era.             :\n" ++
  ":                                                              :\n" ++
  ":    This is a freely distributed official container image.    :\n" ++
  ":                      Use it - Share it                       :\n" ++
  ":                                                              :\n" ++
  ": Get started: https://learn.srlinux.dev                       :\n" ++
  ": Container:   https://go.srlinux.dev/container-image          :\n" ++
  ": Docs:        https://doc.srlinux.dev/"

/-- The banner text between the Docs verbs and the release-notes verbs. -/
def seg1 : String := "                   :\n: Rel. notes:  https://doc.srlinux.dev/rn"

/-- The banner text between the release-notes verbs and the YANG verbs. -/
def seg2 : String := "               :\n: YANG:        https://yang.srlinux.dev/v"

/-- The banner text after the last verb. -/
def seg3 : String :=
  "               :\n" ++
  ": Discord:     https://go.srlinux.dev/discord                  :\n" ++
  ": Contact:     https://go.srlinux.dev/contact-sales            :\n" ++
  "................................................................\n"

/-- The nine lines of the banner above the Docs line. -/
def headLines : List String :=
  ["................................................................",
   ":                  Welcome to Nokia SR Linux!                  :",
   ":              Open Network OS for the NetOps era.             :",
   ":                                                              :",
   ":    This is a freely distributed official container image.    :",
   ":                      Use it - Share it                       :",
   ":                                                              :",
   ": Get started: https://learn.srlinux.dev                       :",
   ": Container:   https://go.srlinux.dev/container-image          :"]

/-- The Docs line: `minor` is followed by spaces up to a width of two. -/
def docsLine (major minor : String) : String :=
  ": Docs:        https://doc.srlinux.dev/" ++ major ++ "-" ++ minor ++
    ⟨List.replicate (2 - minor.length) ' '⟩ ++ "                   :"

/-- The release-notes line with the link `rn<major>-<minor>-<patch>`. -/
def relNotesLine (major minor patch : String) : String :=
  ": Rel. notes:  https://doc.srlinux.dev/rn" ++ major ++ "-" ++ minor ++ "-" ++ patch ++
    "               :"

/-- The YANG line with the link `v<major>.<minor>.<patch>`. -/
def yangLine (major minor patch : String) : String :=
  ": YANG:        https://yang.srlinux.dev/v" ++ major ++ "." ++ minor ++ "." ++ patch ++
    "               :"

/-- The three lines of the banner below the YANG line. -/
def tailLines : List String :=
  [": Discord:     https://go.srlinux.dev/discord                  :",
   ": Contact:     https://go.srlinux.dev/contact-sales            :",
   "................................................................"]

/-- The lines of a formatted banner, given the tokens put into the links. -/
def bannerLines (major minor patch : String) : List String :=
  headLines ++ [docsLine major minor, relNotesLine major minor patch, yangLine major minor patch]
    ++ tailLines

/-- A text made of the given lines, each ended by a newline. -/
def unlines (ls : List String) : String :=
  String.join (ls.map (fun l => l ++ "\n"))

/-- The patch token `banner` substitutes: `patch` and one space when `minor` is one
byte long, `patch` itself otherwise. -/
def patchToken (v : SrlVersion) : String :=
  if goLen v.minor = 1 then v.patch ++ " " else v.patch

/-- A token of plain text: ASCII characters, none of them a newline. -/
def plainToken (s : String) : Prop :=
  ∀ c ∈ s.data, c.toNat < 128 ∧ c ≠ '\n'

end srl

namespace xrd

/-- The `k`-th entry of the interface enumeration, `k` counted from 1. -/
def interfaceEntry (k : Nat) : String :=
  "linux:eth" ++ toString k ++ ",xr_name=Gi0/0/0/" ++ toString (k - 1) ++ ";"

/-- The 90 entries of the interface enumeration, in order. -/
def interfaceEntries : List String :=
  (List.range 90).map (fun i => interfaceEntry (i + 1))

/-- No `h` is directly followed by `0`. -/
def noH0 (a b : Char) : Prop := ¬ (a = 'h' ∧ b = '0')

/-- A list of characters in which no `h` is directly followed by `0`. -/
def noH0List : List Char → Bool
  | a :: b :: t => !(a == 'h' && b == '0') && noH0List (b :: t)
  | _ => true

end xrd

/-! ## Concrete inputs -/

namespace types

/-- The zero value of `NodeConfig`. -/
def NodeConfig.zero : NodeConfig :=
  { ShortName := "", LongName := "", Image := "", LabDir := "", Env := [], Binds := [],
    StartupConfig := "", ResStartupConfig := "", EnforceStartupConfig := false }

end types

namespace xrd

/-- The driver as `new(xrd)` makes it, before `Init`. -/
def newXrd (W : Type) : xrd W :=
  { cfg := types.NodeConfig.zero, runtime := none }

/-- The config `createXRDFiles` leaves behind: the resolved path is set inside
the lab directory, enforcement is switched on and an empty startup-config source
becomes the sentinel `None`. -/
def preparedConfig (cfg : types.NodeConfig) : types.NodeConfig :=
  let cfg := { cfg with ResStartupConfig := filepath.Join cfg.LabDir "xrd.conf" }
  let cfg := { cfg with EnforceStartupConfig := true }
  if cfg.StartupConfig = "" then { cfg with StartupConfig := "None" } else cfg

/-- The file phase of `createXRDFiles` on a prepared config: render to the resolved
path, then append the user file when the source is not the sentinel. -/
def writeStartupConfig (render : types.NodeConfig → String → Except Error String)
    (cfgTemplate : String) (cfg : types.NodeConfig) (fs : FileSys) :
    Result (Option Error) × FileSys :=
  match cfg.GenerateConfig render cfg.ResStartupConfig cfgTemplate fs with
  | .error err => (.returned (some err), fs)
  | .ok fs =>
    if cfg.StartupConfig ≠ "None" then
      match os.OpenFileAppend fs cfg.ResStartupConfig with
      | .error _ => (.exited 1, fs)
      | .ok file =>
        match ioutil.ReadFile fs cfg.StartupConfig with
        | .error err => (.panicked (some err), fs)
        | .ok bytes => (.returned none, fmt.Fprintln fs file bytes)
    else (.returned none, fs)

/-- A node config with a user startup-config source and an explicit environment. -/
def sampleConfig : types.NodeConfig :=
  { ShortName := "r1", LongName := "clab-lab-r1", Image := "ios-xr/xrd-control-plane:7.8.1",
    LabDir := "/lab/r1",
    Env := [("XR_MGMT_INTERFACES", "linux:eth0,xr_name=Mg0/RP0/CPU0/0"), ("CUSTOM", "1")],
    Binds := ["/host/certs:/certs"],
    StartupConfig := "/cfg/r1.cfg", ResStartupConfig := "", EnforceStartupConfig := false }

/-- The driver holding `sampleConfig`, with no runtime installed. -/
def sampleXrd : xrd (List String) :=
  { cfg := sampleConfig, runtime := none }

/-- A driver whose startup-config source is the rendered file itself, under
another spelling of its path. -/
def selfSourcedXrd : xrd (List String) :=
  { cfg := { sampleConfig with StartupConfig := "/lab/r1/./xrd.conf" }, runtime := none }

/-- A driver whose startup-config source does not exist on `sampleFs`. -/
def missingSourceXrd : xrd (List String) :=
  { cfg := { sampleConfig with StartupConfig := "/cfg/absent.cfg" }, runtime := none }

/-- A template without actions. -/
def sampleTemplate : String := "hostname xrd\n"

/-- A template engine for templates without actions: the text renders to itself. -/
def plainRender (_ : types.NodeConfig) (templ : String) : Except Error String :=
  .ok templ

/-- A filesystem without links, in which the lab directory `/lab/r1` exists and
the user file `/cfg/r1.cfg` holds `X`. -/
def sampleFs : FileSys :=
  { resolve := filepath.Clean,
    files := fun p => if p = "/cfg/r1.cfg" then some "X" else none,
    dirs := fun p => decide (p = "/lab/r1") || decide (p = "/cfg"),
    denied := fun _ => false,
    readOnly := fun _ => false }

/-- A filesystem as `sampleFs` that holds `X` at the path the rendered file goes to. -/
def selfSourcedFs : FileSys :=
  { sampleFs with files := fun p => if p = "/lab/r1/xrd.conf" then some "X" else none }

/-- A filesystem as `sampleFs` in which the file at the resolved startup-config
path cannot be opened for writing. -/
def readOnlyFs : FileSys :=
  { sampleFs with readOnly := fun p => decide (p = "/lab/r1/xrd.conf") }

/-- A container engine that keeps the names of the existing containers and, like
Docker, refuses to delete a container that does not exist. -/
def strictRuntime : ContainerRuntime (List String) :=
  { Exec := fun w name _ =>
      if name ∈ w then (("", "", none), w)
      else (("", "", some (.RuntimeError ("No such container: " ++ name))), w),
    DeleteContainer := fun w name =>
      if name ∈ w then (none, w.erase name)
      else (some (.RuntimeError ("No such container: " ++ name)), w) }

end xrd

namespace srl

/-- A runtime whose `Exec` succeeds with a fixed output. -/
def echoRuntime (out : String) : ContainerRuntime Unit :=
  { Exec := fun w _ _ => ((out, "", none), w),
    DeleteContainer := fun w _ => (none, w) }

/-- An `srl` driver over `echoRuntime`. -/
def sampleSrl (out : String) : srl Unit :=
  { cfg := { types.NodeConfig.zero with ShortName := "srl1", LongName := "clab-lab-srl1" },
    runtime := some (echoRuntime out) }

end srl

namespace fmt

theorem sprintfAux_lit (l r : List Char) (args : List Arg) (h : ∀ c ∈ l, c ≠ '%') :
    sprintfAux (l ++ r) none args = l ++ sprintfAux r none args := by
  induction l with
  | nil => rfl
  | cons c cs ih =>
    have hc : c ≠ '%' := h c (List.mem_cons_self _ _)
    have hcs : ∀ d ∈ cs, d ≠ '%' := fun d hd => h d (List.mem_cons_of_mem _ hd)
    simp [sprintfAux, hc, ih hcs]

theorem sprintfAux_lit_end (l : List Char) (h : ∀ c ∈ l, c ≠ '%') :
    sprintfAux l none [] = l := by
  have e := sprintfAux_lit l [] [] h
  rw [List.append_nil] at e
  rw [e]
  show l ++ [] = l
  exact List.append_nil l

theorem sprintfAux_char (c : Char) (r : List Char) (args : List Arg) (hc : c ≠ '%') :
    sprintfAux (c :: r) none args = c :: sprintfAux r none args := by
  simp [sprintfAux, hc]

theorem sprintfAux_s (r : List Char) (s : String) (args : List Arg) :
    sprintfAux ('%' :: 's' :: r) none (.str s :: args) = s.data ++ sprintfAux r none args := by
  simp [sprintfAux, formatArg, pad]

theorem sprintfAux_d (r : List Char) (n : Int) (args : List Arg) :
    sprintfAux ('%' :: 'd' :: r) none (.int n :: args)
      = (toString n).data ++ sprintfAux r none args := by
  simp [sprintfAux, formatArg, pad]

theorem sprintfAux_m2s (r : List Char) (s : String) (args : List Arg) :
    sprintfAux ('%' :: '-' :: '2' :: 's' :: r) none (.str s :: args)
      = (s.data ++ List.replicate (2 - s.data.length) ' ') ++ sprintfAux r none args := by
  simp [sprintfAux, formatArg, pad, Char.isDigit]

theorem Sprintf_bind (p : String) :
    Sprintf "%s:/etc/xrd/first-boot.cfg" [.str p] = p ++ ":/etc/xrd/first-boot.cfg" := by
  apply String.ext
  have hl : ∀ c ∈ ":/etc/xrd/first-boot.cfg".data, c ≠ '%' := by decide
  have h := sprintfAux_lit_end ":/etc/xrd/first-boot.cfg".data hl
  have e : "%s:/etc/xrd/first-boot.cfg".data = '%' :: 's' :: ":/etc/xrd/first-boot.cfg".data := rfl
  simp only [Sprintf, e, sprintfAux_s, h, String.data_append]

theorem Sprintf_interface (i : Nat) :
    Sprintf "linux:eth%d,xr_name=Gi0/0/0/%d;" [.int ((i : Int) + 1), .int (i : Int)]
      = "linux:eth" ++ toString (i + 1) ++ ",xr_name=Gi0/0/0/" ++ toString i ++ ";" := by
  apply String.ext
  have e : "linux:eth%d,xr_name=Gi0/0/0/%d;".data
      = "linux:eth".data ++ '%' :: 'd' :: (",xr_name=Gi0/0/0/".data ++ '%' :: 'd' :: [';']) := rfl
  have h1 : ∀ c ∈ "linux:eth".data, c ≠ '%' := by decide
  have h2 : ∀ c ∈ ",xr_name=Gi0/0/0/".data, c ≠ '%' := by decide
  have h3 : sprintfAux [';'] none [] = [';'] := sprintfAux_lit_end [';'] (by decide)
  have t1 : toString ((i : Int) + 1) = toString (i + 1) := by
    have : ((i : Int) + 1) = Int.ofNat (i + 1) := by simp
    rw [this]; rfl
  have t2 : toString (i : Int) = toString i := rfl
  simp only [Sprintf, e, sprintfAux_lit _ _ _ h1, sprintfAux_lit _ _ _ h2, sprintfAux_d, h3, t1, t2,
    String.data_append]
  simp
  rfl

end fmt

namespace srl
open fmt

set_option maxRecDepth 100000 in
theorem banner_split : banner.data =
    seg0.data ++ '%' :: 's' :: '-' :: '%' :: '-' :: '2' :: 's' :: (seg1.data ++
      '%' :: 's' :: '-' :: '%' :: 's' :: '-' :: '%' :: 's' :: (seg2.data ++
      '%' :: 's' :: '.' :: '%' :: 's' :: '.' :: '%' :: 's' :: seg3.data)) := by
  decide

set_option maxRecDepth 100000 in
theorem seg0_lit : ∀ c ∈ seg0.data, c ≠ '%' := by decide

set_option maxRecDepth 100000 in
theorem seg1_lit : ∀ c ∈ seg1.data, c ≠ '%' := by decide

set_option maxRecDepth 100000 in
theorem seg2_lit : ∀ c ∈ seg2.data, c ≠ '%' := by decide

set_option maxRecDepth 100000 in
theorem seg3_lit : ∀ c ∈ seg3.data, c ≠ '%' := by decide

set_option maxRecDepth 100000 in
theorem Sprintf_banner_segs (major minor patch : String) :
    Sprintf banner [.str major, .str minor, .str major, .str minor, .str patch,
        .str major, .str minor, .str patch]
      = seg0 ++ major ++ "-" ++ minor ++ ⟨List.replicate (2 - minor.length) ' '⟩ ++ seg1
          ++ major ++ "-" ++ minor ++ "-" ++ patch ++ seg2
          ++ major ++ "." ++ minor ++ "." ++ patch ++ seg3 := by
  apply String.ext
  have h3 : sprintfAux seg3.data none [] = seg3.data := by
    have := sprintfAux_lit seg3.data [] [] seg3_lit
    simpa [sprintfAux] using this
  simp only [Sprintf, banner_split, sprintfAux_lit _ _ _ seg0_lit, sprintfAux_lit _ _ _ seg1_lit,
    sprintfAux_lit _ _ _ seg2_lit, sprintfAux_s, sprintfAux_m2s, h3,
    sprintfAux_char '-' _ _ (by decide), sprintfAux_char '.' _ _ (by decide),
    String.data_append, String.length]
  simp

set_option maxRecDepth 100000 in
theorem segs_eq_lines (major minor patch : String) :
    seg0 ++ major ++ "-" ++ minor ++ ⟨List.replicate (2 - minor.length) ' '⟩ ++ seg1
          ++ major ++ "-" ++ minor ++ "-" ++ patch ++ seg2
          ++ major ++ "." ++ minor ++ "." ++ patch ++ seg3
      = unlines (bannerLines major minor patch) := by
  apply String.ext
  simp only [unlines, bannerLines, headLines, tailLines, docsLine, relNotesLine, yangLine,
    List.map_append, List.map_cons, List.map_nil, String.join, List.foldl_append, List.foldl_cons,
    List.foldl_nil, String.data_append, List.append_assoc, seg0, seg1, seg2, seg3]
  simp

/-- The string `banner` returns once `Exec` has succeeded: the banner lines with
the parsed major and minor and the patch token in the links. -/
theorem banner_returns_lines {W : Type} (s : srl W) (rt : ContainerRuntime W)
    (parseVersionString : String → SrlVersion) (w w1 : W) (stdout stderr : String)
    (hrt : s.runtime = some rt)
    (hexec : rt.Exec w s.cfg.LongName
      ["sr_cli", "-d", "info from state /system information version | grep version"]
        = ((stdout, stderr, none), w1)) :
    s.banner parseVersionString w
      = (.returned (unlines (bannerLines (parseVersionString stdout).major
          (parseVersionString stdout).minor (patchToken (parseVersionString stdout))), none),
         w1) := by
  unfold srl.banner
  simp only [hrt, hexec]
  by_cases h : goLen (parseVersionString stdout).minor = 1
  · simp only [h, if_true, patchToken, Sprintf_banner_segs, segs_eq_lines]
  · simp only [h, if_false, patchToken, Sprintf_banner_segs, segs_eq_lines]

theorem goLen_of_single (s : String) (hlen : s.length = 1) (h : plainToken s) : goLen s = 1 := by
  obtain ⟨l⟩ := s
  match l, hlen, h with
  | [c], _, h =>
    have hc : c.toNat < 128 := (h c (List.mem_singleton.mpr rfl)).1
    have hv : c.val ≤ 127 := by
      have : c.val.toNat < 128 := hc
      exact UInt32.le_def.mpr (by simpa using Nat.lt_succ_iff.mp this)
    simp [goLen, String.utf8ByteSize, String.utf8ByteSize.go, Char.utf8Size, hv]

theorem goLen_of_pair (s : String) (hlen : s.length = 2) : goLen s ≠ 1 := by
  obtain ⟨l⟩ := s
  match l, hlen with
  | [c, d], _ =>
    have hc := Char.utf8Size_pos c
    have hd := Char.utf8Size_pos d
    simp only [goLen, String.utf8ByteSize, String.utf8ByteSize.go]
    omega

theorem headLines_width : ∀ l ∈ headLines, l.length = 64 ∧ '\n' ∉ l.data := by decide

theorem tailLines_width : ∀ l ∈ tailLines, l.length = 64 ∧ '\n' ∉ l.data := by decide

theorem mem_bannerLines (major minor p l : String) (hl : l ∈ bannerLines major minor p) :
    l ∈ headLines ∨ l = docsLine major minor ∨ l = relNotesLine major minor p
      ∨ l = yangLine major minor p ∨ l ∈ tailLines := by
  simp only [bannerLines, List.mem_append, List.mem_cons, List.mem_singleton,
    List.not_mem_nil, or_false] at hl
  tauto

theorem docsLine_length (major minor : String) :
    (docsLine major minor).length
      = 39 + major.length + 1 + minor.length + (2 - minor.length) + 20 := by
  have e1 : (": Docs:        https://doc.srlinux.dev/" : String).length = 39 := rfl
  have e2 : ("-" : String).length = 1 := rfl
  have e3 : ("                   :" : String).length = 20 := rfl
  have e4 : (⟨List.replicate (2 - minor.length) ' '⟩ : String).length = 2 - minor.length :=
    List.length_replicate _ _
  simp only [docsLine, String.length_append, e1, e2, e3, e4]

theorem relNotesLine_length (major minor p : String) :
    (relNotesLine major minor p).length
      = 41 + major.length + 1 + minor.length + 1 + p.length + 16 := by
  have e1 : (": Rel. notes:  https://doc.srlinux.dev/rn" : String).length = 41 := rfl
  have e2 : ("-" : String).length = 1 := rfl
  have e3 : ("               :" : String).length = 16 := rfl
  simp only [relNotesLine, String.length_append, e1, e2, e3]

theorem yangLine_length (major minor p : String) :
    (yangLine major minor p).length
      = 41 + major.length + 1 + minor.length + 1 + p.length + 16 := by
  have e1 : (": YANG:        https://yang.srlinux.dev/v" : String).length = 41 := rfl
  have e2 : ("." : String).length = 1 := rfl
  have e3 : ("               :" : String).length = 16 := rfl
  simp only [yangLine, String.length_append, e1, e2, e3]

theorem bannerLines_width (major minor p : String) (hmaj : major.length = 2)
    (hmin : minor.length ≤ 2) (hsum : minor.length + p.length = 3) :
    ∀ l ∈ bannerLines major minor p, l.length = 64 := by
  intro l hl
  rcases mem_bannerLines major minor p l hl with h | h | h | h | h
  · exact (headLines_width l h).1
  · rw [h, docsLine_length]
    omega
  · rw [h, relNotesLine_length]
    omega
  · rw [h, yangLine_length]
    omega
  · exact (tailLines_width l h).1

theorem bannerLines_one_line (major minor p : String)
    (hmaj : '\n' ∉ major.data) (hmin : '\n' ∉ minor.data) (hp : '\n' ∉ p.data) :
    ∀ l ∈ bannerLines major minor p, '\n' ∉ l.data := by
  intro l hl
  have hrep : ∀ n : Nat, '\n' ∉ List.replicate n ' ' := by
    intro n h
    exact absurd (List.eq_of_mem_replicate h) (by decide)
  rcases mem_bannerLines major minor p l hl with h | h | h | h | h
  · exact (headLines_width l h).2
  · subst h
    simp only [docsLine, String.data_append, List.mem_append, not_or]
    exact ⟨⟨⟨⟨⟨by decide, hmaj⟩, by decide⟩, hmin⟩, hrep _⟩, by decide⟩
  · subst h
    simp only [relNotesLine, String.data_append, List.mem_append, not_or]
    exact ⟨⟨⟨⟨⟨⟨by decide, hmaj⟩, by decide⟩, hmin⟩, by decide⟩, hp⟩, by decide⟩
  · subst h
    simp only [yangLine, String.data_append, List.mem_append, not_or]
    exact ⟨⟨⟨⟨⟨⟨by decide, hmaj⟩, by decide⟩, hmin⟩, by decide⟩, hp⟩, by decide⟩
  · exact (tailLines_width l h).2

end srl

namespace srl
open fmt

/-- C8: once `Exec` has succeeded, `banner` returns the banner lines in which the
release-notes link `rn<major>-<minor>-<patch>` and the YANG link
`v<major>.<minor>.<patch>` carry the parsed major and minor unchanged and, as patch
token, the parsed patch followed by exactly one space when `len(minor)` is 1 and the
parsed patch unchanged otherwise. -/
theorem banner_pads_patch_when_minor_single {W : Type} (s : srl W) (rt : ContainerRuntime W)
    (parseVersionString : String → SrlVersion) (w w1 : W) (stdout stderr : String)
    (hrt : s.runtime = some rt)
    (hexec : rt.Exec w s.cfg.LongName
      ["sr_cli", "-d", "info from state /system information version | grep version"]
        = ((stdout, stderr, none), w1)) :
    s.banner parseVersionString w
      = (.returned
          (unlines (headLines ++
            [docsLine (parseVersionString stdout).major (parseVersionString stdout).minor,
             relNotesLine (parseVersionString stdout).major (parseVersionString stdout).minor
               (if goLen (parseVersionString stdout).minor = 1
                then (parseVersionString stdout).patch ++ " "
                else (parseVersionString stdout).patch),
             yangLine (parseVersionString stdout).major (parseVersionString stdout).minor
               (if goLen (parseVersionString stdout).minor = 1
                then (parseVersionString stdout).patch ++ " "
                else (parseVersionString stdout).patch)]
            ++ tailLines), none),
         w1) :=
  banner_returns_lines s rt parseVersionString w w1 stdout stderr hrt hexec

/-- C8 at two versions: minor `3` and patch `5` give the patch token `5` and a
space, minor `12` leaves the patch `1` as it is. -/
theorem banner_pads_patch_when_minor_single_witness :
    (sampleSrl "v22.3.5").banner (fun _ => ⟨"22", "3", "5"⟩) ()
        = (.returned
            (unlines (headLines ++
              [docsLine "22" "3", relNotesLine "22" "3" "5 ", yangLine "22" "3" "5 "]
              ++ tailLines), none), ())
      ∧ (sampleSrl "v21.12.1").banner (fun _ => ⟨"21", "12", "1"⟩) ()
        = (.returned
            (unlines (headLines ++
              [docsLine "21" "12", relNotesLine "21" "12" "1", yangLine "21" "12" "1"]
              ++ tailLines), none), ()) :=
  ⟨banner_pads_patch_when_minor_single (sampleSrl "v22.3.5") (echoRuntime "v22.3.5")
      (fun _ => ⟨"22", "3", "5"⟩) () () "v22.3.5" "" rfl rfl,
   banner_pads_patch_when_minor_single (sampleSrl "v21.12.1") (echoRuntime "v21.12.1")
      (fun _ => ⟨"21", "12", "1"⟩) () () "v21.12.1" "" rfl rfl⟩

/-- C9, refuted at major `22`, minor `é` and patch `5`, a two-character major, a
one-character minor and a one-character patch: `len(minor)` is 2, so the patch is
not padded, and the release-notes and YANG lines are 63 characters long where the
Docs line and the fixed lines have 64. With a patch that is a newline the string
has more than 15 lines. -/
theorem banner_misaligned_when_minor_not_ascii :
    ("22".length = 2 ∧ "é".length = 1 ∧ "5".length = 1 ∧ goLen "é" = 2)
      ∧ (sampleSrl "v22.é.5").banner (fun _ => ⟨"22", "é", "5"⟩) ()
        = (.returned
            (unlines (headLines ++
              [docsLine "22" "é", relNotesLine "22" "é" "5", yangLine "22" "é" "5"]
              ++ tailLines), none), ())
      ∧ (docsLine "22" "é").length = 64
      ∧ (relNotesLine "22" "é" "5").length = 63
      ∧ (yangLine "22" "é" "5").length = 63
      ∧ ("\n".length = 1
        ∧ (sampleSrl "v22.3").banner (fun _ => ⟨"22", "3", "\n"⟩) ()
          = (.returned
              (unlines (headLines ++
                [docsLine "22" "3", relNotesLine "22" "3" "\n ", yangLine "22" "3" "\n "]
                ++ tailLines), none), ())
        ∧ '\n' ∈ (relNotesLine "22" "3" "\n ").data) :=
  ⟨by decide,
   banner_returns_lines (sampleSrl "v22.é.5") (echoRuntime "v22.é.5")
     (fun _ => ⟨"22", "é", "5"⟩) () () "v22.é.5" "" rfl rfl,
   by decide, by decide, by decide, by decide,
   banner_returns_lines (sampleSrl "v22.3") (echoRuntime "v22.3")
     (fun _ => ⟨"22", "3", "\n"⟩) () () "v22.3" "" rfl rfl,
   by decide⟩

/-- C9 as amended: for a parsed version whose tokens are plain one-line ASCII text,
with a two-character major, a minor of one or two characters and a one-character
patch, the string `banner` returns consists of 15 lines, each ended by a newline
and each 64 characters long, whether the minor has one character or two. -/
theorem banner_lines_have_equal_width {W : Type} (s : srl W) (rt : ContainerRuntime W)
    (parseVersionString : String → SrlVersion) (w w1 : W) (stdout stderr : String)
    (hrt : s.runtime = some rt)
    (hexec : rt.Exec w s.cfg.LongName
      ["sr_cli", "-d", "info from state /system information version | grep version"]
        = ((stdout, stderr, none), w1))
    (hplain : plainToken (parseVersionString stdout).major
      ∧ plainToken (parseVersionString stdout).minor
      ∧ plainToken (parseVersionString stdout).patch)
    (hmajor : (parseVersionString stdout).major.length = 2)
    (hminor : (parseVersionString stdout).minor.length = 1
      ∨ (parseVersionString stdout).minor.length = 2)
    (hpatch : (parseVersionString stdout).patch.length = 1) :
    ∃ lines : List String,
      s.banner parseVersionString w = (.returned (unlines lines, none), w1)
        ∧ lines.length = 15
        ∧ ∀ l ∈ lines, l.length = 64 ∧ '\n' ∉ l.data := by
  refine ⟨_, banner_returns_lines s rt parseVersionString w w1 stdout stderr hrt hexec, rfl, ?_⟩
  have hnl : ∀ t : String, plainToken t → '\n' ∉ t.data := fun t ht hmem => (ht _ hmem).2 rfl
  have hsum : (parseVersionString stdout).minor.length
      + (patchToken (parseVersionString stdout)).length = 3 := by
    unfold patchToken
    rcases hminor with h1 | h2
    · rw [if_pos (goLen_of_single _ h1 hplain.2.1), String.length_append]
      have : (" " : String).length = 1 := rfl
      omega
    · rw [if_neg (goLen_of_pair _ h2)]
      omega
  have hpnl : '\n' ∉ (patchToken (parseVersionString stdout)).data := by
    unfold patchToken
    split
    · rw [String.data_append, List.mem_append, not_or]
      exact ⟨hnl _ hplain.2.2, by decide⟩
    · exact hnl _ hplain.2.2
  intro l hl
  exact ⟨bannerLines_width _ _ _ hmajor (by omega) hsum l hl,
    bannerLines_one_line _ _ _ (hnl _ hplain.1) (hnl _ hplain.2.1) hpnl l hl⟩

/-- C9, the amended statement at version 22.3.5. -/
theorem banner_lines_have_equal_width_witness :
    ∃ lines : List String,
      (sampleSrl "v22.3.5").banner (fun _ => ⟨"22", "3", "5"⟩) ()
          = (.returned (unlines lines, none), ())
        ∧ lines.length = 15
        ∧ ∀ l ∈ lines, l.length = 64 ∧ '\n' ∉ l.data :=
  banner_lines_have_equal_width (sampleSrl "v22.3.5") (echoRuntime "v22.3.5")
    (fun _ => ⟨"22", "3", "5"⟩) () () "v22.3.5" "" rfl rfl
    ⟨by unfold plainToken; decide, by unfold plainToken; decide, by unfold plainToken; decide⟩
    rfl (Or.inl rfl) rfl

end srl

namespace xrd
open fmt

theorem foldl_append_init (l : List String) (init : String) :
    l.foldl (fun r s => r ++ s) init = init ++ String.join l := by
  induction l generalizing init with
  | nil => simp [String.join]
  | cons a as ih =>
    have e : String.join (a :: as) = a ++ String.join as := by
      show (a :: as).foldl (fun r s => r ++ s) "" = _
      rw [List.foldl_cons, ih]
      simp
    rw [List.foldl_cons, ih, e, String.append_assoc]

theorem foldl_append_join (f : Nat → String) (l : List Nat) (init : String) :
    l.foldl (fun acc i => acc ++ f i) init = init ++ String.join (l.map f) := by
  rw [← foldl_append_init, List.foldl_map]

theorem interfaceEnvCount_eq : interfaceEnvCount = String.join interfaceEntries := by
  unfold interfaceEnvCount interfaceEntries
  have hf : (fun (acc : String) (i : Nat) => acc ++ fmt.Sprintf "linux:eth%d,xr_name=Gi0/0/0/%d;"
        [.int ((i : Int) + 1), .int (i : Int)])
      = (fun acc i => acc ++ ("linux:eth" ++ toString (i + 1) ++ ",xr_name=Gi0/0/0/"
          ++ toString i ++ ";")) := by
    funext acc i
    rw [Sprintf_interface]
  rw [hf]
  rw [foldl_append_join (fun i => "linux:eth" ++ toString (i + 1) ++ ",xr_name=Gi0/0/0/"
    ++ toString i ++ ";")]
  simp [interfaceEntry]

theorem Init_env {W : Type} (x : xrd W) (cfg : types.NodeConfig) (opts : List (xrd W → xrd W)) :
    (x.Init cfg opts).2.cfg.Env
      = utils.MergeStringMaps [("XR_INTERFACES", interfaceEnvCount)] defEnv := rfl

theorem Init_binds {W : Type} (x : xrd W) (cfg : types.NodeConfig) (opts : List (xrd W → xrd W)) :
    (x.Init cfg opts).2.cfg.Binds
      = (applyOptions opts { x with cfg := cfg }).cfg.Binds
          ++ [filepath.Join (applyOptions opts { x with cfg := cfg }).cfg.LabDir "xrd.conf"
                ++ ":/etc/xrd/first-boot.cfg"] := by
  simp only [xrd.Init, Sprintf_bind]

set_option maxRecDepth 1000000 in
theorem entries_terminated :
    ∀ e ∈ interfaceEntries, e.data.count ';' = 1 ∧ e.data.getLast? = some ';' := by
  decide

set_option maxRecDepth 1000000 in
theorem entries_no_eth0 : ∀ e ∈ interfaceEntries, ¬ ("eth0".data <:+: e.data) := by
  decide

theorem entries_get (k : Nat) (h1 : 1 ≤ k) (h2 : k ≤ 90) :
    interfaceEntries[k - 1]? = some (interfaceEntry k) := by
  unfold interfaceEntries
  rw [List.getElem?_map, List.getElem?_range (by omega)]
  simp
  congr 1
  omega

theorem join_data (l : List String) : (String.join l).data = (l.map String.data).flatten := by
  induction l with
  | nil => rfl
  | cons a as ih =>
    have e : String.join (a :: as) = a ++ String.join as := by
      show (a :: as).foldl (fun r s => r ++ s) "" = _
      rw [List.foldl_cons, foldl_append_init]
      simp
    rw [e, String.data_append, ih]
    rfl

set_option maxRecDepth 1000000 in
theorem entries_count : ((interfaceEntries.map String.data).map (List.count ';')).sum = 90 := by
  decide

theorem value_count : (String.join interfaceEntries).data.count ';' = 90 := by
  rw [join_data, List.count_flatten, entries_count]

theorem chain_of_noH0List : ∀ (l : List Char), noH0List l = true → List.Chain' noH0 l
  | [], _ => List.chain'_nil
  | [_], _ => List.chain'_singleton _
  | a :: b :: t, h => by
    simp only [noH0List, Bool.and_eq_true, Bool.not_eq_true', Bool.and_eq_false_imp,
      beq_iff_eq] at h
    rw [List.chain'_cons]
    refine ⟨?_, chain_of_noH0List (b :: t) h.2⟩
    intro hab
    have := h.1 hab.1
    simp [hab.2] at this

set_option maxRecDepth 1000000 in
theorem entries_chain : ∀ e ∈ interfaceEntries.map String.data,
    noH0List e = true ∧ e ≠ [] ∧ e.getLast? = some ';' := by
  decide

theorem chain_of_left {α : Type} (S : α → α → Prop) :
    ∀ (L : List α), (∀ a ∈ L, ∀ b, S a b) → List.Chain' S L
  | [], _ => List.chain'_nil
  | [_], _ => List.chain'_singleton _
  | a :: b :: t, h => by
    rw [List.chain'_cons]
    exact ⟨h a (List.mem_cons_self _ _) b,
      chain_of_left S (b :: t) (fun c hc => h c (List.mem_cons_of_mem _ hc))⟩

theorem no_eth0_of_entries (L : List (List Char))
    (h : ∀ e ∈ L, noH0List e = true ∧ e ≠ [] ∧ e.getLast? = some ';') :
    ¬ ("eth0".data <:+: L.flatten) := by
  intro hinf
  have hchain : List.Chain' noH0 L.flatten := by
    rw [List.chain'_flatten]
    · refine ⟨fun e he => chain_of_noH0List e (h e he).1, chain_of_left _ _ ?_⟩
      intro a ha b x hx y _
      have hlast := (h a ha).2.2
      rw [hlast] at hx
      cases hx
      intro hxy
      exact absurd hxy.1 (by decide)
    · intro hmem
      exact (h [] hmem).2.1 rfl
  have hbad : List.Chain' noH0 "eth0".data := List.Chain'.infix hchain hinf
  have e : "eth0".data = ['e', 't', 'h', '0'] := rfl
  rw [e] at hbad
  simp [noH0] at hbad

theorem value_no_eth0 : ¬ ("eth0".data <:+: (String.join interfaceEntries).data) := by
  rw [join_data]
  exact no_eth0_of_entries _ entries_chain

end xrd

namespace xrd
open fmt

theorem write_write (fs : FileSys) (p a b : String) : (fs.write p a).write p b = fs.write p b := by
  unfold FileSys.write
  congr 1
  funext q
  by_cases h : q = p <;> simp [h]

theorem files_write (fs : FileSys) (p a q : String) :
    (fs.write p a).files q = if q = p then some a else fs.files q := rfl

theorem denied_write (fs : FileSys) (p a : String) : (fs.write p a).denied = fs.denied := rfl

theorem readOnly_write (fs : FileSys) (p a : String) : (fs.write p a).readOnly = fs.readOnly :=
  rfl

theorem dirs_write (fs : FileSys) (p a : String) : (fs.write p a).dirs = fs.dirs := rfl

theorem resolve_write (fs : FileSys) (p a : String) : (fs.write p a).resolve = fs.resolve := rfl

theorem createDirectory_files (fs : FileSys) (d : String) :
    (utils.CreateDirectory fs d).files = fs.files := by
  unfold utils.CreateDirectory
  split <;> rfl

theorem createDirectory_denied (fs : FileSys) (d : String) :
    (utils.CreateDirectory fs d).denied = fs.denied := by
  unfold utils.CreateDirectory
  split <;> rfl

theorem createDirectory_readOnly (fs : FileSys) (d : String) :
    (utils.CreateDirectory fs d).readOnly = fs.readOnly := by
  unfold utils.CreateDirectory
  split <;> rfl

theorem createDirectory_resolve (fs : FileSys) (d : String) :
    (utils.CreateDirectory fs d).resolve = fs.resolve := by
  unfold utils.CreateDirectory
  split <;> rfl

theorem createDirectory_dirs_mono (fs : FileSys) (d p : String) (h : fs.dirs p = true) :
    (utils.CreateDirectory fs d).dirs p = true := by
  unfold utils.CreateDirectory
  split
  · exact h
  · by_cases hp : p = fs.resolve d <;> simp [hp, h]

/-- Creating the directory again, after a file elsewhere has been written, changes
nothing. -/
theorem createDirectory_after_write (fs : FileSys) (d place content : String)
    (hplace : (utils.CreateDirectory fs d).dirs place = false) :
    utils.CreateDirectory ((utils.CreateDirectory fs d).write place content) d
      = (utils.CreateDirectory fs d).write place content := by
  by_cases hc : fs.denied (fs.resolve d) = true ∨ (fs.files (fs.resolve d)).isSome = true
  · have e : utils.CreateDirectory fs d = fs := by
      unfold utils.CreateDirectory
      rw [if_pos hc]
    rw [e]
    unfold utils.CreateDirectory
    have hc2 : (fs.write place content).denied ((fs.write place content).resolve d) = true
        ∨ ((fs.write place content).files ((fs.write place content).resolve d)).isSome = true := by
      rcases hc with h | h
      · exact Or.inl h
      · right
        rw [resolve_write, files_write]
        by_cases hp : fs.resolve d = place
        · simp [hp]
        · simpa [hp] using h
    rw [if_pos hc2]
  · have e : utils.CreateDirectory fs d
        = { fs with dirs := fun p => if p = fs.resolve d then true else fs.dirs p } := by
      unfold utils.CreateDirectory
      rw [if_neg hc]
    rw [e] at hplace ⊢
    have hne : fs.resolve d ≠ place := by
      intro h
      simp [h] at hplace
    have hnd : ¬ fs.denied (fs.resolve d) = true := fun h => hc (Or.inl h)
    have hnf : fs.files (fs.resolve d) = none := by
      cases hf : fs.files (fs.resolve d) with
      | none => rfl
      | some c => exact absurd (Or.inr (by simp [hf])) hc
    unfold utils.CreateDirectory FileSys.write
    simp only [hne, if_false, hnf, Option.isSome_none, Bool.false_eq_true, or_false, hnd]
    congr 1
    funext q
    by_cases hq : q = fs.resolve d <;> simp [hq]

theorem createXRDFiles_eq {W : Type} (render : types.NodeConfig → String → Except Error String)
    (tmpl : String) (x : xrd W) (fs : FileSys) :
    x.createXRDFiles render tmpl fs
      = ((writeStartupConfig render tmpl (preparedConfig x.cfg) fs).1,
         { x with cfg := preparedConfig x.cfg },
         (writeStartupConfig render tmpl (preparedConfig x.cfg) fs).2) := by
  unfold xrd.createXRDFiles writeStartupConfig
  simp only [xrd.Config, preparedConfig]
  by_cases hs : x.cfg.StartupConfig = ""
  · simp only [hs, if_true]
    cases types.NodeConfig.GenerateConfig render _ _ tmpl fs with
    | error e => rfl
    | ok fs1 => simp
  · simp only [hs, if_false]
    cases types.NodeConfig.GenerateConfig render _ _ tmpl fs with
    | error e => rfl
    | ok fs1 =>
      simp only
      by_cases hn : x.cfg.StartupConfig = "None"
      · simp [hn]
      · simp only [ne_eq, hn, not_false_eq_true, if_true]
        cases os.OpenFileAppend fs1 _ with
        | error e => rfl
        | ok file =>
          simp only
          cases ioutil.ReadFile fs1 _ with
          | error e => rfl
          | ok bytes => rfl

/-- The conditions under which the rendered text can be written to `dst`: its
directory exists, `dst` is not a directory, and access is not denied. -/
theorem generateConfig_ok (render : types.NodeConfig → String → Except Error String)
    (c : types.NodeConfig) (dst tmpl R : String) (fs : FileSys)
    (hr : render c tmpl = .ok R)
    (hdir : fs.dirs (fs.resolve (filepath.Dir dst)) = true)
    (hnd : fs.dirs (fs.resolve dst) = false)
    (hd : fs.denied (fs.resolve dst) = false) :
    c.GenerateConfig render dst tmpl fs = .ok (fs.write (fs.resolve dst) R) := by
  unfold types.NodeConfig.GenerateConfig
  simp [hr, hdir, hnd, hd]

theorem generateConfig_inv (render : types.NodeConfig → String → Except Error String)
    (c : types.NodeConfig) (dst tmpl : String) (fs fs1 : FileSys)
    (h : c.GenerateConfig render dst tmpl fs = .ok fs1) :
    ∃ R, render c tmpl = .ok R ∧ fs.dirs (fs.resolve (filepath.Dir dst)) = true
      ∧ fs.dirs (fs.resolve dst) = false ∧ fs.denied (fs.resolve dst) = false
      ∧ fs1 = fs.write (fs.resolve dst) R := by
  unfold types.NodeConfig.GenerateConfig at h
  cases hr : render c tmpl with
  | error e => simp [hr] at h
  | ok R =>
    simp only [hr] at h
    by_cases h1 : fs.dirs (fs.resolve (filepath.Dir dst)) = false
    · simp [h1] at h
    · by_cases h2 : fs.dirs (fs.resolve dst) = true
      · simp [h1, h2] at h
      · by_cases h3 : fs.denied (fs.resolve dst) = true
        · simp [h1, h2, h3] at h
        · simp only [h1, h2, h3, if_false] at h
          injection h with h
          exact ⟨R, rfl, by simpa using h1, by simpa using h2, by simpa using h3, h.symm⟩

/-- The file phase once rendering has succeeded and the rendered text can be
written, in closed form. -/
theorem writeStartupConfig_ok (render : types.NodeConfig → String → Except Error String)
    (tmpl R : String) (c : types.NodeConfig) (fs : FileSys)
    (hr : render c tmpl = .ok R)
    (hdir : fs.dirs (fs.resolve (filepath.Dir c.ResStartupConfig)) = true)
    (hnd : fs.dirs (fs.resolve c.ResStartupConfig) = false)
    (hd : fs.denied (fs.resolve c.ResStartupConfig) = false) :
    writeStartupConfig render tmpl c fs
      = if c.StartupConfig ≠ "None" then
          if fs.readOnly (fs.resolve c.ResStartupConfig) then
            (.exited 1, fs.write (fs.resolve c.ResStartupConfig) R)
          else
            match ioutil.ReadFile (fs.write (fs.resolve c.ResStartupConfig) R) c.StartupConfig with
            | .error err => (.panicked (some err), fs.write (fs.resolve c.ResStartupConfig) R)
            | .ok bytes =>
              (.returned none, fs.write (fs.resolve c.ResStartupConfig) (R ++ bytes ++ "\n"))
        else (.returned none, fs.write (fs.resolve c.ResStartupConfig) R) := by
  unfold writeStartupConfig
  rw [generateConfig_ok render c _ tmpl R fs hr hdir hnd hd]
  simp only
  by_cases hn : c.StartupConfig = "None"
  · simp [hn]
  · simp only [ne_eq, hn, not_false_eq_true, if_true]
    by_cases hro : fs.readOnly (fs.resolve c.ResStartupConfig) = true
    · have ho : os.OpenFileAppend (fs.write (fs.resolve c.ResStartupConfig) R) c.ResStartupConfig
          = .error (.FilesystemError ("open " ++ c.ResStartupConfig ++ ": permission denied")) := by
        unfold os.OpenFileAppend
        simp [files_write, resolve_write, denied_write, readOnly_write, hro]
      rw [ho]
      simp [hro]
    · have ho : os.OpenFileAppend (fs.write (fs.resolve c.ResStartupConfig) R) c.ResStartupConfig
          = .ok (fs.resolve c.ResStartupConfig) := by
        unfold os.OpenFileAppend
        simp [files_write, resolve_write, denied_write, readOnly_write, hro, hd]
      have hro2 : fs.readOnly (fs.resolve c.ResStartupConfig) = false := by simpa using hro
      rw [ho]
      cases ioutil.ReadFile (fs.write (fs.resolve c.ResStartupConfig) R) c.StartupConfig with
      | error e => simp [hro2]
      | ok bytes => simp [hro2, fmt.Fprintln, files_write, write_write]

/-- A successful file phase leaves the input filesystem with one file rewritten. -/
theorem writeStartupConfig_success (render : types.NodeConfig → String → Except Error String)
    (tmpl : String) (c : types.NodeConfig) (fs : FileSys)
    (h : (writeStartupConfig render tmpl c fs).1 = .returned none) :
    ∃ R Y, render c tmpl = .ok R
      ∧ fs.dirs (fs.resolve (filepath.Dir c.ResStartupConfig)) = true
      ∧ fs.dirs (fs.resolve c.ResStartupConfig) = false
      ∧ fs.denied (fs.resolve c.ResStartupConfig) = false
      ∧ (writeStartupConfig render tmpl c fs).2 = fs.write (fs.resolve c.ResStartupConfig) Y := by
  cases hg : c.GenerateConfig render c.ResStartupConfig tmpl fs with
  | error e =>
    unfold writeStartupConfig at h
    simp [hg] at h
  | ok fs1 =>
    obtain ⟨R, hr, hdir, hnd, hd, _⟩ := generateConfig_inv render c _ tmpl fs fs1 hg
    rw [writeStartupConfig_ok render tmpl R c fs hr hdir hnd hd] at h ⊢
    by_cases hn : c.StartupConfig = "None"
    · exact ⟨R, R, hr, hdir, hnd, hd, by simp [hn]⟩
    · simp only [ne_eq, hn, not_false_eq_true, if_true] at h ⊢
      by_cases hro : fs.readOnly (fs.resolve c.ResStartupConfig) = true
      · simp [hro] at h
      · have hro2 : fs.readOnly (fs.resolve c.ResStartupConfig) = false := by simpa using hro
        simp only [hro2, Bool.false_eq_true, if_false] at h ⊢
        cases hrd : ioutil.ReadFile (fs.write (fs.resolve c.ResStartupConfig) R)
            c.StartupConfig with
        | error e => simp [hrd] at h
        | ok bytes => exact ⟨R, R ++ bytes ++ "\n", hr, hdir, hnd, hd, by simp⟩

/-- The file phase does not depend on what the resolved path held before. -/
theorem writeStartupConfig_overwrite (render : types.NodeConfig → String → Except Error String)
    (tmpl R Y : String) (c : types.NodeConfig) (fs : FileSys)
    (hr : render c tmpl = .ok R)
    (hdir : fs.dirs (fs.resolve (filepath.Dir c.ResStartupConfig)) = true)
    (hnd : fs.dirs (fs.resolve c.ResStartupConfig) = false)
    (hd : fs.denied (fs.resolve c.ResStartupConfig) = false) :
    writeStartupConfig render tmpl c (fs.write (fs.resolve c.ResStartupConfig) Y)
      = writeStartupConfig render tmpl c fs := by
  rw [writeStartupConfig_ok render tmpl R c fs hr hdir hnd hd,
    writeStartupConfig_ok render tmpl R c (fs.write (fs.resolve c.ResStartupConfig) Y) hr
      hdir hnd hd]
  simp only [write_write, resolve_write, readOnly_write]

theorem preparedConfig_idem (c : types.NodeConfig) :
    preparedConfig (preparedConfig c) = preparedConfig c := by
  unfold preparedConfig
  by_cases h : c.StartupConfig = ""
  · simp [h]
  · simp [h]

theorem preparedConfig_labDir (c : types.NodeConfig) : (preparedConfig c).LabDir = c.LabDir := by
  unfold preparedConfig
  by_cases h : c.StartupConfig = "" <;> simp [h]

theorem preparedConfig_res (c : types.NodeConfig) :
    (preparedConfig c).ResStartupConfig = filepath.Join c.LabDir "xrd.conf" := by
  unfold preparedConfig
  by_cases h : c.StartupConfig = "" <;> simp [h]

theorem PreDeploy_eq {W : Type} (render : types.NodeConfig → String → Except Error String)
    (tmpl : String) (x : xrd W) (fs : FileSys) :
    x.PreDeploy render tmpl fs
      = ((writeStartupConfig render tmpl (preparedConfig x.cfg)
            (utils.CreateDirectory fs x.cfg.LabDir)).1,
         { x with cfg := preparedConfig x.cfg },
         (writeStartupConfig render tmpl (preparedConfig x.cfg)
            (utils.CreateDirectory fs x.cfg.LabDir)).2) := by
  unfold xrd.PreDeploy
  exact createXRDFiles_eq render tmpl x _

theorem PreDeploy_twice {W : Type} (render : types.NodeConfig → String → Except Error String)
    (tmpl : String) (x : xrd W) (fs : FileSys)
    (h : (x.PreDeploy render tmpl fs).1 = .returned none) :
    (x.PreDeploy render tmpl fs).2.1.PreDeploy render tmpl (x.PreDeploy render tmpl fs).2.2
      = x.PreDeploy render tmpl fs := by
  rw [PreDeploy_eq render tmpl x fs] at h ⊢
  simp only at h ⊢
  obtain ⟨R, Y, hr, hdir, hnd, hd, hfs⟩ := writeStartupConfig_success render tmpl _ _ h
  rw [PreDeploy_eq]
  simp only [preparedConfig_idem, preparedConfig_labDir]
  rw [hfs, createDirectory_after_write fs x.cfg.LabDir _ Y hnd,
    writeStartupConfig_overwrite render tmpl R Y _ _ hr hdir hnd hd, hfs]

end xrd

namespace xrd
open fmt

/-- C1, evaluated at a config with an explicit environment: `Init` assigns `defEnv`
over the environment the config came with, so the explicit value of
`XR_MGMT_INTERFACES` is replaced by the kind default and the explicit key `CUSTOM`
is gone after `Init`. -/
theorem Init_overwrites_explicit_env :
    sampleConfig.Env.lookup "XR_MGMT_INTERFACES" = some "linux:eth0,xr_name=Mg0/RP0/CPU0/0"
      ∧ ((newXrd Unit).Init sampleConfig []).2.cfg.Env.lookup "XR_MGMT_INTERFACES"
          = some "linux:eth0,xr_name=Mg0/RP0/CPU0/0,chksum"
      ∧ sampleConfig.Env.lookup "CUSTOM" = some "1"
      ∧ ((newXrd Unit).Init sampleConfig []).2.cfg.Env.lookup "CUSTOM" = none := by
  refine ⟨by decide, ?_, by decide, ?_⟩
  · rw [Init_env]
    decide
  · rw [Init_env]
    decide

/-- C3: for every config and every sequence of options, `Init` stores under
`XR_INTERFACES` the concatenation of exactly 90 entries in increasing order, the
`k`-th being `linux:eth<k>,xr_name=Gi0/0/0/<k-1>;` for `k = 1..90`; the value holds
90 semicolons, one closing each entry, and `eth0` occurs nowhere in it. -/
theorem Init_interface_enumeration {W : Type} (x : xrd W) (cfg : types.NodeConfig)
    (opts : List (xrd W → xrd W)) :
    (x.Init cfg opts).2.cfg.Env.lookup "XR_INTERFACES" = some (String.join interfaceEntries)
      ∧ interfaceEntries.length = 90
      ∧ (∀ i : Fin 90, interfaceEntries[i.val]?
          = some ("linux:eth" ++ toString (i.val + 1) ++ ",xr_name=Gi0/0/0/"
              ++ toString i.val ++ ";"))
      ∧ (∀ e ∈ interfaceEntries, e.data.count ';' = 1 ∧ e.data.getLast? = some ';')
      ∧ (String.join interfaceEntries).data.count ';' = 90
      ∧ ¬ ("eth0".data <:+: (String.join interfaceEntries).data) := by
  refine ⟨?_, ?_, ?_, entries_terminated, value_count, value_no_eth0⟩
  · rw [Init_env, interfaceEnvCount_eq]
    simp [utils.MergeStringMaps, defEnv, List.lookup]
  · simp [interfaceEntries]
  · intro i
    have h := entries_get (i.val + 1) (by omega) (by omega)
    simpa [interfaceEntry] using h

/-- C6, refuted at the zero config: with image and names empty `Init` still
returns no error. -/
theorem Init_accepts_missing_image_and_name :
    types.NodeConfig.zero.Image = "" ∧ types.NodeConfig.zero.ShortName = ""
      ∧ types.NodeConfig.zero.LongName = ""
      ∧ ((newXrd Unit).Init types.NodeConfig.zero []).1 = none :=
  ⟨rfl, rfl, rfl, rfl⟩

/-- C6 as amended: `Init` validates nothing; for every config, also one whose image
or name is empty, and every sequence of options it returns no error. -/
theorem Init_returns_no_error {W : Type} (x : xrd W) (cfg : types.NodeConfig)
    (opts : List (xrd W → xrd W)) :
    (x.Init cfg opts).1 = none := rfl

/-- C7, refuted with a gateway that reports a missing container: a first `Delete`
removes the container, a second `Delete` of the same node returns the gateway's
error, and so does `Delete` of a node whose container never existed. -/
theorem Delete_after_delete_fails :
    (xrd.WithRuntime sampleXrd strictRuntime).Delete ["clab-lab-r1"]
        = (.returned none, [])
      ∧ (xrd.WithRuntime sampleXrd strictRuntime).Delete []
        = (.returned (some (.RuntimeError "No such container: clab-lab-r1")), []) := by
  constructor <;> decide

/-- C7 as amended: `Delete` hands the container's long name to the gateway and
returns what `DeleteContainer` returns, error or not; it succeeds on an absent
container exactly when the gateway does. -/
theorem Delete_returns_gateway_result {W : Type} (cfg : types.NodeConfig)
    (rt : ContainerRuntime W) (w : W) :
    (xrd.mk cfg (some rt)).Delete w
        = (.returned (rt.DeleteContainer w cfg.LongName).1, (rt.DeleteContainer w cfg.LongName).2)
      ∧ (((xrd.mk cfg (some rt)).Delete w).1 = .returned none
          ↔ (rt.DeleteContainer w cfg.LongName).1 = none) := by
  have h : (xrd.mk cfg (some rt)).Delete w
      = (.returned (rt.DeleteContainer w cfg.LongName).1,
          (rt.DeleteContainer w cfg.LongName).2) := rfl
  refine ⟨h, ?_⟩
  rw [h]
  constructor
  · intro e
    injection e
  · intro e
    simp only [e]

/-- C10: after `Init` and then `PreDeploy`, whatever the options, the filesystem and
the way `PreDeploy` ends, the last bind is `ResStartupConfig`, a colon and the value
`v` of the `XR_FIRST_BOOT_CONFIG` environment entry, where `ResStartupConfig` is
`filepath.Join(LabDir, "xrd.conf")` and `v` is `/etc/xrd/first-boot.cfg`; `PreDeploy`
leaves the binds as `Init` made them, and `Init` keeps the binds the config had when
the options had run, in order, in front of the new one. -/
theorem Init_PreDeploy_bind {W : Type} (render : types.NodeConfig → String → Except Error String)
    (tmpl : String) (x : xrd W) (cfg : types.NodeConfig) (opts : List (xrd W → xrd W))
    (fs : FileSys) :
    (∃ v : String,
        ((x.Init cfg opts).2.PreDeploy render tmpl fs).2.1.cfg.Env.lookup "XR_FIRST_BOOT_CONFIG"
          = some v
        ∧ v = "/etc/xrd/first-boot.cfg"
        ∧ ((x.Init cfg opts).2.PreDeploy render tmpl fs).2.1.cfg.Binds.getLast?
          = some (((x.Init cfg opts).2.PreDeploy render tmpl fs).2.1.cfg.ResStartupConfig
              ++ ":" ++ v))
      ∧ ((x.Init cfg opts).2.PreDeploy render tmpl fs).2.1.cfg.ResStartupConfig
        = filepath.Join ((x.Init cfg opts).2.PreDeploy render tmpl fs).2.1.cfg.LabDir "xrd.conf"
      ∧ ((x.Init cfg opts).2.PreDeploy render tmpl fs).2.1.cfg.Binds
        = (x.Init cfg opts).2.cfg.Binds
      ∧ (x.Init cfg opts).2.cfg.Binds
        = (applyOptions opts { x with cfg := cfg }).cfg.Binds
            ++ [filepath.Join (applyOptions opts { x with cfg := cfg }).cfg.LabDir "xrd.conf"
                  ++ ":/etc/xrd/first-boot.cfg"] := by
  have hb : ∀ c : types.NodeConfig, (preparedConfig c).Binds = c.Binds := by
    intro c
    unfold preparedConfig
    by_cases h : c.StartupConfig = "" <;> simp [h]
  have he : ∀ c : types.NodeConfig, (preparedConfig c).Env = c.Env := by
    intro c
    unfold preparedConfig
    by_cases h : c.StartupConfig = "" <;> simp [h]
  have hl : (x.Init cfg opts).2.cfg.LabDir = (applyOptions opts { x with cfg := cfg }).cfg.LabDir :=
    rfl
  rw [PreDeploy_eq]
  simp only [hb, he, preparedConfig_res, preparedConfig_labDir, Init_binds, hl]
  refine ⟨⟨"/etc/xrd/first-boot.cfg", ?_, rfl, ?_⟩, trivial, trivial, trivial⟩
  · rw [Init_env]
    decide
  · rw [List.getLast?_append]
    simp [String.append_assoc]

end xrd

namespace xrd
open fmt

/-- C2, refuted at a user file holding `X` and a template rendering to
`hostname xrd` and a newline, the lab directory being there: the file left behind
is the rendered text, then `X`, then a newline, not the rendered text, a newline,
then `X`. When the source path denotes the rendered file itself, the user content is
overwritten before it is read and the rendered text is appended to itself. -/
theorem createXRDFiles_newline_after_user_content :
    sampleFs.files (sampleFs.resolve sampleXrd.cfg.StartupConfig) = some "X"
      ∧ (sampleXrd.createXRDFiles plainRender sampleTemplate sampleFs).1 = .returned none
      ∧ (sampleXrd.createXRDFiles plainRender sampleTemplate sampleFs).2.1.cfg.ResStartupConfig
          = "/lab/r1/xrd.conf"
      ∧ (sampleXrd.createXRDFiles plainRender sampleTemplate sampleFs).2.2.files
            ((sampleXrd.createXRDFiles plainRender sampleTemplate sampleFs).2.2.resolve
              "/lab/r1/xrd.conf")
          = some "hostname xrd\nX\n"
      ∧ (sampleXrd.createXRDFiles plainRender sampleTemplate sampleFs).2.2.files
            ((sampleXrd.createXRDFiles plainRender sampleTemplate sampleFs).2.2.resolve
              "/lab/r1/xrd.conf")
          ≠ some ("hostname xrd\n" ++ "\n" ++ "X")
      ∧ selfSourcedFs.files (selfSourcedFs.resolve selfSourcedXrd.cfg.StartupConfig) = some "X"
      ∧ (selfSourcedXrd.createXRDFiles plainRender sampleTemplate selfSourcedFs).2.2.files
            ((selfSourcedXrd.createXRDFiles plainRender sampleTemplate selfSourcedFs).2.2.resolve
              "/lab/r1/xrd.conf")
          = some "hostname xrd\nhostname xrd\n\n" := by
  decide

/-- C2 as amended: for every config whose startup-config source is set and names a
readable file with content `X` that is another file than the one the resolved
startup-config path denotes, when the template renders to `R`, the directory of the
resolved path exists and the file at the resolved path can be written and opened
for append, `createXRDFiles`, `PreDeploy` and `PostDeploy` return no error and leave
at the resolved path exactly `R` followed by `X` followed by a newline. -/
theorem createXRDFiles_appends_user_config {W : Type}
    (render : types.NodeConfig → String → Except Error String) (tmpl R X : String)
    (x : xrd W) (fs : FileSys)
    (hset : x.cfg.StartupConfig ≠ "" ∧ x.cfg.StartupConfig ≠ "None")
    (hother : fs.resolve x.cfg.StartupConfig
      ≠ fs.resolve (filepath.Join x.cfg.LabDir "xrd.conf"))
    (hfile : fs.files (fs.resolve x.cfg.StartupConfig) = some X
      ∧ fs.denied (fs.resolve x.cfg.StartupConfig) = false)
    (hdir : fs.dirs (fs.resolve (filepath.Dir (filepath.Join x.cfg.LabDir "xrd.conf"))) = true)
    (hdst : fs.dirs (fs.resolve (filepath.Join x.cfg.LabDir "xrd.conf")) = false
      ∧ fs.denied (fs.resolve (filepath.Join x.cfg.LabDir "xrd.conf")) = false
      ∧ fs.readOnly (fs.resolve (filepath.Join x.cfg.LabDir "xrd.conf")) = false)
    (hlab : fs.resolve x.cfg.LabDir ≠ fs.resolve (filepath.Join x.cfg.LabDir "xrd.conf"))
    (hrender : render (preparedConfig x.cfg) tmpl = .ok R) :
    ((x.createXRDFiles render tmpl fs).1 = .returned none
        ∧ (x.createXRDFiles render tmpl fs).2.2.files
            ((x.createXRDFiles render tmpl fs).2.2.resolve
              (x.createXRDFiles render tmpl fs).2.1.cfg.ResStartupConfig)
          = some (R ++ X ++ "\n"))
      ∧ ((x.PreDeploy render tmpl fs).1 = .returned none
        ∧ (x.PreDeploy render tmpl fs).2.2.files
            ((x.PreDeploy render tmpl fs).2.2.resolve
              (x.PreDeploy render tmpl fs).2.1.cfg.ResStartupConfig)
          = some (R ++ X ++ "\n"))
      ∧ ((x.PostDeploy render tmpl fs).1 = .returned none
        ∧ (x.PostDeploy render tmpl fs).2.2.files
            ((x.PostDeploy render tmpl fs).2.2.resolve
              (x.PostDeploy render tmpl fs).2.1.cfg.ResStartupConfig)
          = some (R ++ X ++ "\n")) := by
  have hsc : (preparedConfig x.cfg).StartupConfig = x.cfg.StartupConfig := by
    unfold preparedConfig
    simp [hset.1]
  have key : ∀ fs0 : FileSys, fs0.resolve = fs.resolve → fs0.files = fs.files →
      fs0.denied = fs.denied → fs0.readOnly = fs.readOnly →
      fs0.dirs (fs.resolve (filepath.Dir (filepath.Join x.cfg.LabDir "xrd.conf"))) = true →
      fs0.dirs (fs.resolve (filepath.Join x.cfg.LabDir "xrd.conf")) = false →
      writeStartupConfig render tmpl (preparedConfig x.cfg) fs0
        = (.returned none,
            fs0.write (fs.resolve (filepath.Join x.cfg.LabDir "xrd.conf")) (R ++ X ++ "\n")) := by
    intro fs0 hres hf hd hro hdir0 hnd0
    rw [writeStartupConfig_ok render tmpl R _ fs0 hrender
      (by rw [preparedConfig_res, hres]; exact hdir0)
      (by rw [preparedConfig_res, hres]; exact hnd0)
      (by rw [preparedConfig_res, hres, hd]; exact hdst.2.1),
      hsc, preparedConfig_res, hres, hro]
    have hread : ioutil.ReadFile
        (fs0.write (fs.resolve (filepath.Join x.cfg.LabDir "xrd.conf")) R)
        x.cfg.StartupConfig = .ok X := by
      unfold ioutil.ReadFile
      simp [files_write, resolve_write, hres, hother, hf, hfile.1, denied_write, hd, hfile.2]
    simp [hset.2, hread, hdst.2.2]
  have hc := key fs rfl rfl rfl rfl hdir hdst.1
  have hp := key (utils.CreateDirectory fs x.cfg.LabDir) (createDirectory_resolve _ _)
    (createDirectory_files _ _) (createDirectory_denied _ _) (createDirectory_readOnly _ _)
    (createDirectory_dirs_mono _ _ _ hdir)
    (by
      unfold utils.CreateDirectory
      split
      · exact hdst.1
      · simp [Ne.symm hlab, hdst.1])
  have hcreate := createXRDFiles_eq render tmpl x fs
  refine ⟨?_, ?_, ?_⟩
  · rw [hcreate, hc]
    simp [preparedConfig_res, files_write, resolve_write]
  · rw [PreDeploy_eq, hp]
    simp [preparedConfig_res, files_write, resolve_write, createDirectory_resolve]
  · unfold xrd.PostDeploy
    rw [hcreate, hc]
    simp [preparedConfig_res, files_write, resolve_write]

/-- C2, the amended statement at the sample driver: `PreDeploy` leaves the rendered
text, then `X`, then a newline. -/
theorem createXRDFiles_appends_user_config_witness :
    (sampleXrd.PreDeploy plainRender sampleTemplate sampleFs).1 = .returned none
      ∧ (sampleXrd.PreDeploy plainRender sampleTemplate sampleFs).2.2.files
          ((sampleXrd.PreDeploy plainRender sampleTemplate sampleFs).2.2.resolve
            (sampleXrd.PreDeploy plainRender sampleTemplate sampleFs).2.1.cfg.ResStartupConfig)
        = some ("hostname xrd\n" ++ "X" ++ "\n") :=
  (createXRDFiles_appends_user_config plainRender sampleTemplate "hostname xrd\n" "X"
    sampleXrd sampleFs (by decide) (by decide) (by decide) (by decide) (by decide) (by decide)
    rfl).2.1

/-- C4: when a first `PreDeploy` returns without error, a second one on the state
the first left behind also returns without error and changes nothing: the file at
the resolved startup-config path exists with the same bytes, the whole filesystem
is as the first call left it, and `StartupConfig`, `ResStartupConfig` and
`EnforceStartupConfig` keep the values the first call gave them. -/
theorem PreDeploy_idempotent {W : Type}
    (render : types.NodeConfig → String → Except Error String) (tmpl : String)
    (x : xrd W) (fs : FileSys)
    (h : (x.PreDeploy render tmpl fs).1 = .returned none) :
    ((x.PreDeploy render tmpl fs).2.1.PreDeploy render tmpl (x.PreDeploy render tmpl fs).2.2).1
        = .returned none
      ∧ (∃ bytes : String,
          (x.PreDeploy render tmpl fs).2.2.files
              ((x.PreDeploy render tmpl fs).2.2.resolve
                (x.PreDeploy render tmpl fs).2.1.cfg.ResStartupConfig) = some bytes
          ∧ ((x.PreDeploy render tmpl fs).2.1.PreDeploy render tmpl
                (x.PreDeploy render tmpl fs).2.2).2.2.files
              (((x.PreDeploy render tmpl fs).2.1.PreDeploy render tmpl
                (x.PreDeploy render tmpl fs).2.2).2.2.resolve
                ((x.PreDeploy render tmpl fs).2.1.PreDeploy render tmpl
                  (x.PreDeploy render tmpl fs).2.2).2.1.cfg.ResStartupConfig) = some bytes)
      ∧ ((x.PreDeploy render tmpl fs).2.1.PreDeploy render tmpl
            (x.PreDeploy render tmpl fs).2.2).2.2 = (x.PreDeploy render tmpl fs).2.2
      ∧ ((x.PreDeploy render tmpl fs).2.1.PreDeploy render tmpl
            (x.PreDeploy render tmpl fs).2.2).2.1.cfg = (x.PreDeploy render tmpl fs).2.1.cfg := by
  have h2 := PreDeploy_twice render tmpl x fs h
  rw [h2]
  refine ⟨h, ?_, rfl, rfl⟩
  rw [PreDeploy_eq] at h ⊢
  simp only at h ⊢
  obtain ⟨R, Y, _, _, _, _, hfs⟩ := writeStartupConfig_success render tmpl _ _ h
  refine ⟨Y, ?_, ?_⟩ <;> simp [hfs, files_write, resolve_write]

/-- C4 at the sample driver, whose first `PreDeploy` succeeds: the second call
leaves the filesystem of the first. -/
theorem PreDeploy_idempotent_witness :
    ((sampleXrd.PreDeploy plainRender sampleTemplate sampleFs).2.1.PreDeploy plainRender
        sampleTemplate (sampleXrd.PreDeploy plainRender sampleTemplate sampleFs).2.2).2.2
      = (sampleXrd.PreDeploy plainRender sampleTemplate sampleFs).2.2 :=
  (PreDeploy_idempotent plainRender sampleTemplate sampleXrd sampleFs (by decide)).2.2.1

/-- C5, evaluated at a startup-config source that does not exist: `PreDeploy` does
not return; `createXRDFiles` panics with the error of the failed read. At a rendered
file that cannot be opened for append, `log.Fatal` ends the process. -/
theorem PreDeploy_panics_on_unreadable_source :
    sampleFs.files (sampleFs.resolve missingSourceXrd.cfg.StartupConfig) = none
      ∧ (missingSourceXrd.PreDeploy plainRender sampleTemplate sampleFs).1
        = .panicked (some (.FilesystemError
            "open /cfg/absent.cfg: no such file or directory"))
      ∧ (sampleXrd.PreDeploy plainRender sampleTemplate readOnlyFs).1 = .exited 1 := by
  decide

end xrd

end Containerlab
